import Mathlib

set_option maxRecDepth 40000

/-!
Verification of the `led-indicator` daemon (src/led-indicator.cpp) against its
specification.  The C++ source is shallowly embedded below: process-global
variables (`led_action`, `serviceName`, the GPIO pin level) become explicit
state or parameters, wall-clock time becomes a `Nat` of milliseconds since the
epoch, and the observable side effects of the daemon (GPIO writes, bus-name
acquisition/release, line acquisition/release, signalfd lifecycle) become an
explicit event trace.
-/

/-! ## Configuration defaults (namespace `defaults` in the source) -/

namespace defaults

def chipname : String := "gpiochip0"

def line_num : Nat := 13

def serviceName : String := "com.walbrix.LedIndicatorService"

def objectPath : String := "/com/walbrix/LedIndicator"

def interfaceName : String := "com.walbrix.LedIndicator"

end defaults

/-- `const std::string progname = "led-indicator";` -/
def progname : String := "led-indicator"

/-- `enum led_action_t { LED_ON, LED_OFF, LED_BLINK };` -/
inductive led_action_t where
  | LED_ON
  | LED_OFF
  | LED_BLINK
deriving DecidableEq, Repr

/-- `bool get_expected_led_state(int blink_interval_ms = 500)` from the source.
The global `led_action` and the wall-clock reading
`system_clock::now().time_since_epoch()` in milliseconds are passed explicitly;
time since the epoch is nonnegative, so it is modelled as a `Nat` (C++ `/` and
`%` agree with `Nat` division/modulo on nonnegative operands).  The C++ default
argument `blink_interval_ms = 500` is passed explicitly at every call site. -/
def get_expected_led_state (led_action : led_action_t) (now_ms : Nat)
    (blink_interval_ms : Nat) : Bool :=
  match led_action with
  | led_action_t.LED_ON => true
  | led_action_t.LED_OFF => false
  | led_action_t.LED_BLINK => (now_ms / blink_interval_ms) % 2 == 0

/-- The D-Bus `set` method handler (the lambda registered in `service`,
source lines 71-85).  It receives the request string and the current value of
the global `led_action`, and returns the new value of `led_action` together
with the boolean reply. -/
def set_handler (action : String) (led_action : led_action_t) :
    led_action_t × Bool :=
  if action == "on" then (led_action_t.LED_ON, true)
  else if action == "off" then (led_action_t.LED_OFF, true)
  else if action == "blink" then (led_action_t.LED_BLINK, true)
  else (led_action, false)

/-- The D-Bus `get` method handler (source lines 88-90):
`led_action == LED_ON ? "on" : led_action == LED_OFF ? "off" : "blink"`. -/
def get_handler (led_action : led_action_t) : String :=
  if led_action == led_action_t.LED_ON then "on"
  else if led_action == led_action_t.LED_OFF then "off"
  else "blink"

/-- Folding a sequence of `set` calls over the daemon's `led_action` state
(each call's boolean reply goes back to the client and does not affect the
daemon). -/
def apply_sets (actions : List String) (s : led_action_t) : led_action_t :=
  actions.foldl (fun st a => (set_handler a st).1) s

/-- One pending D-Bus request, as drained by `connection->processPendingRequest()`
inside the poll loop: either a `set` call (with its string argument) or a `get`
call. -/
inductive BusRequest where
  | set (action : String)
  | get
deriving DecidableEq, Repr

/-- Effect of one pending request on the global `led_action` (a `get` reads but
does not change it). -/
def process_request (r : BusRequest) (a : led_action_t) : led_action_t :=
  match r with
  | BusRequest.set action => (set_handler action a).1
  | BusRequest.get => a

/-- `while(connection->processPendingRequest()) ;` — drain all pending
requests, in order. -/
def process_pending (rs : List BusRequest) (a : led_action_t) : led_action_t :=
  rs.foldl (fun a r => process_request r a) a

/-- Mutable state of the `service` daemon that the poll loop reads and writes:
the global `led_action`, the last level commanded on the GPIO output line
(`line.get_value()` on a line requested as output reports the last written
level), and the local `exit_requested` flag. -/
structure DaemonState where
  led_action : led_action_t
  pin : Bool
  exit_requested : Bool
deriving DecidableEq, Repr

/-- External observations made by one poll-loop iteration: whether the
signalfd was readable (`fds[1].revents & POLLIN`), the pending bus requests
drained this iteration, and the wall-clock reading (ms since epoch) taken by
`get_expected_led_state`. -/
structure IterInput where
  signal_ready : Bool
  requests : List BusRequest
  now : Nat
deriving DecidableEq, Repr

/-- Observable side effects of the `service` function, in program order. -/
inductive Event where
  | requestName
  | acquireLine
  | createSignalFd
  | writePin (level : Bool)
  | closeSignalFd
  | releaseLine
  | releaseName
deriving DecidableEq, Repr

/-- `poll(fds, 2, 100)` — the poll timeout in milliseconds (source line 110). -/
def poll_timeout_ms : Nat := 100

/-- One iteration of the poll loop body (source lines 104-122), after the
`poll` call returns: record the termination signal if the signalfd is ready,
drain all pending bus requests, compute the expected LED state at the current
wall-clock time, and write the pin only when the expected level differs from
the line's current (last-commanded) level.  Returns the updated state and the
GPIO writes issued. -/
def loop_iteration (s : DaemonState) (inp : IterInput) :
    DaemonState × List Event :=
  let exit_requested := s.exit_requested || inp.signal_ready
  let led_action := process_pending inp.requests s.led_action
  let expected_led_state := get_expected_led_state led_action inp.now 500
  if s.pin != expected_led_state then
    (⟨led_action, expected_led_state, exit_requested⟩,
     [Event.writePin expected_led_state])
  else
    (⟨led_action, s.pin, exit_requested⟩, [])

/-- The poll loop `while (!exit_requested) { ... }`, run against a finite
schedule of per-iteration observations (the schedule plays the role of fuel:
a real run that terminates is a run in which some prefix of the schedule sets
`exit_requested`).  Returns the state at loop exit and the events emitted by
the executed iterations. -/
def run_loop : DaemonState → List IterInput → DaemonState × List Event
  | s, [] => (s, [])
  | s, inp :: rest =>
    if s.exit_requested = true then (s, [])
    else
      let r := loop_iteration s inp
      let r2 := run_loop r.1 rest
      (r2.1, r.2 ++ r2.2)

/-- Daemon state on entering the loop: `led_action` is initialised to
`LED_OFF` (source line 39), the line was driven low right after acquisition
(source line 98), and `exit_requested` starts false (source line 102). -/
def initial_state : DaemonState := ⟨led_action_t.LED_OFF, false, false⟩

/-- Startup effects of `service` before the poll loop, in source order
(lines 92-100): claim the bus name, acquire the GPIO line as output, drive it
low, create the signalfd. -/
def startup_events : List Event :=
  [Event.requestName, Event.acquireLine, Event.writePin false,
   Event.createSignalFd]

/-- Shutdown effects of `service` after the poll loop, in source order
(lines 124-129): `close(sigfd)`, `line.set_value(0)`, `line.release()`,
`connection->releaseName(serviceName)`. -/
def shutdown_events : List Event :=
  [Event.closeSignalFd, Event.writePin false, Event.releaseLine,
   Event.releaseName]

/-- Full observable trace of one `service` run against a schedule of loop
inputs: startup effects, then the loop's GPIO writes, then — if the loop
actually exited — the shutdown sequence. -/
def service_trace (inputs : List IterInput) : List Event :=
  let r := run_loop initial_state inputs
  startup_events ++
    (if r.1.exit_requested = true then r.2 ++ shutdown_events else r.2)

/-! ## String templating (`policyfile` and `unitfile`)

`std::string::find` + `std::string::replace` on the first occurrence of a
placeholder is modelled by `replaceFirst` over `List Char`.  In the C++ source
a failed `find` would make `replace` throw (`npos` out of range); every use
below has the placeholder present, and `replaceFirst` leaves the string
unchanged in the (unreached) not-found case. -/

/-- Characters that can occur in a placeholder token (`PROGNAME`,
`SERVICE_NAME`, `INTERFACE_NAME`, `EXEPATH`, `OPTS1`, `OPTS2`): ASCII
uppercase, digits, underscore.  Used to rule out placeholder occurrences that
would span a chunk boundary. -/
def tokChar (c : Char) : Bool := c.isUpper || c.isDigit || c == '_'

/-- `true` when the list is empty or does not start with a token character. -/
def okHead (l : List Char) : Bool :=
  match l with
  | [] => true
  | c :: _ => !(tokChar c)

/-- `true` when the list is empty or does not end with a token character. -/
def okLast (l : List Char) : Bool := okHead l.reverse

/-- Whether `pat` occurs as a contiguous substring (what `std::string::find`
searches for). -/
def containsB (pat : List Char) : List Char → Bool
  | [] => pat.isPrefixOf []
  | c :: cs => pat.isPrefixOf (c :: cs) || containsB pat cs

/-- Replace the first (leftmost) occurrence of `pat` by `repl`:
`content.replace(content.find(pat), pat.size(), repl)`. -/
def replaceFirst (pat repl : List Char) : List Char → List Char
  | [] => []
  | c :: cs =>
    if pat.isPrefixOf (c :: cs) then repl ++ (c :: cs).drop pat.length
    else c :: replaceFirst pat repl cs

/-- `pat` has no nonempty proper border (no nonempty proper suffix that is
also a prefix); all six placeholder tokens satisfy this, which makes the
leftmost occurrence of a token in `a ++ tok ++ b` with `tok` absent from `a`
sit exactly at position `a.length`. -/
def borderfreeB (pat : List Char) : Bool :=
  (List.range pat.length).all fun k => k == 0 || !((pat.drop k).isPrefixOf pat)

/-- The placeholder tokens of the two templates. -/
def progTok : List Char := "PROGNAME".toList

def svcTok : List Char := "SERVICE_NAME".toList

def ifaceTok : List Char := "INTERFACE_NAME".toList

def exeTok : List Char := "EXEPATH".toList

def opts1Tok : List Char := "OPTS1".toList

def opts2Tok : List Char := "OPTS2".toList

/-- The raw-string template of `policyfile` (source lines 154-166). -/
def policy_template : String :=
  "<!DOCTYPE busconfig PUBLIC\n \"-//freedesktop//DTD D-Bus Bus Configuration 1.0//EN\"\n \"http://www.freedesktop.org/standards/dbus/1.0/busconfig.dtd\">\n<!-- save this as /etc/dbus-1/system.d/PROGNAME.conf -->\n<busconfig>\n  <policy user=\"root\">\n    <allow own=\"SERVICE_NAME\"/>\n  </policy>\n  <policy context=\"default\">\n    <allow send_destination=\"SERVICE_NAME\"/>\n    <allow send_interface=\"INTERFACE_NAME\"/>\n  </policy>\n</busconfig>"

/-- The text printed by `policyfile` (source lines 167-170), with the global
`progname` and the configurable `serviceName`/`interfaceName` passed
explicitly: replace `PROGNAME`, then the first `SERVICE_NAME`, then the
remaining `SERVICE_NAME`, then `INTERFACE_NAME`. -/
def policyfileContent (pn sn iface : String) : List Char :=
  replaceFirst ifaceTok iface.toList
    (replaceFirst svcTok sn.toList
      (replaceFirst svcTok sn.toList
        (replaceFirst progTok pn.toList policy_template.toList)))

/-- `int policyfile()`: prints the substituted template and returns
`EXIT_SUCCESS` (0). -/
def policyfile (sn iface : String) : List Char × Nat :=
  (policyfileContent progname sn iface, 0)

/-- Template chunks of `policy_template` around the placeholder tokens. -/
def polP0 : List Char :=
  "<!DOCTYPE busconfig PUBLIC\n \"-//freedesktop//DTD D-Bus Bus Configuration 1.0//EN\"\n \"http://www.freedesktop.org/standards/dbus/1.0/busconfig.dtd\">\n<!-- save this as /etc/dbus-1/system.d/".toList

def polP1 : List Char :=
  ".conf -->\n<busconfig>\n  <policy user=\"root\">\n    <allow own=\"".toList

def polP2 : List Char :=
  "\"/>\n  </policy>\n  <policy context=\"default\">\n    <allow send_destination=\"".toList

def polP3 : List Char := "\"/>\n    <allow send_interface=\"".toList

def polP4 : List Char := "\"/>\n  </policy>\n</busconfig>".toList

/-- The raw-string template of `unitfile` (source lines 195-207). -/
def unit_template : String :=
  "# Save this as /etc/systemd/system/PROGNAME.service\n[Unit]\nDescription=LED Indicator Service\nDefaultDependencies=no\nBefore=network-pre.target\n\n[Service]\nType=dbus\nBusName=SERVICE_NAME\nExecStart=EXEPATHOPTS1 serviceOPTS2\n\n[Install]\nWantedBy=sysinit.target"

/-- `opts1` of `unitfile` (source lines 183-186): the `--service-name` option
when the service name is not the default. -/
def opts1 (sn : String) : String :=
  if sn ≠ defaults.serviceName then " --service-name=" ++ sn else ""

/-- `opts2` of `unitfile` (source lines 187-193): the `--chipname` and
`--line` options when they differ from the defaults. -/
def opts2 (chipname : String) (line_num : Nat) : String :=
  (if chipname ≠ defaults.chipname then " --chipname=" ++ chipname else "") ++
    (if line_num ≠ defaults.line_num then " --line=" ++ toString line_num
     else "")

/-- The text printed by `unitfile` (source lines 195-213), with the global
`serviceName` and the `readlink("/proc/self/exe")` result passed explicitly:
replace `PROGNAME`, `SERVICE_NAME`, `EXEPATH`, `OPTS1`, `OPTS2`, in that
order.  Note that `objectPath` and `interfaceName` do not occur in the
function at all. -/
def unitfileContent (chipname : String) (line_num : Nat) (sn exepath : String) :
    List Char :=
  replaceFirst opts2Tok (opts2 chipname line_num).toList
    (replaceFirst opts1Tok (opts1 sn).toList
      (replaceFirst exeTok exepath.toList
        (replaceFirst svcTok sn.toList
          (replaceFirst progTok progname.toList
            unit_template.toList))))

/-- `int unitfile(...)`: prints the substituted template and returns
`EXIT_SUCCESS` (0). -/
def unitfile (chipname : String) (line_num : Nat) (sn exepath : String) :
    List Char × Nat :=
  (unitfileContent chipname line_num sn exepath, 0)

/-- Template chunks of `unit_template` around the placeholder tokens. -/
def uniU0 : List Char := "# Save this as /etc/systemd/system/".toList

def uniU1 : List Char :=
  ".service\n[Unit]\nDescription=LED Indicator Service\nDefaultDependencies=no\nBefore=network-pre.target\n\n[Service]\nType=dbus\nBusName=".toList

def uniU2 : List Char := "\nExecStart=".toList

def uniUmid : List Char := " service".toList

def uniU3 : List Char := "\n\n[Install]\nWantedBy=sysinit.target".toList

/-! ## Theorems -/

/-- A Boolean prefix test succeeds exactly when the longer list extends the
shorter one. -/
theorem isPrefixOf_iff_exists (l₁ l₂ : List Char) :
    l₁.isPrefixOf l₂ = true ↔ ∃ t, l₂ = l₁ ++ t := by
  induction l₁ generalizing l₂ with
  | nil => simp [List.isPrefixOf]
  | cons c cs ih =>
    cases l₂ with
    | nil => simp [List.isPrefixOf]
    | cons d ds =>
      simp only [List.isPrefixOf, Bool.and_eq_true, beq_iff_eq, ih,
        List.cons_append, List.cons.injEq]
      constructor
      · rintro ⟨rfl, t, rfl⟩; exact ⟨t, rfl, rfl⟩
      · rintro ⟨t, rfl, rfl⟩; exact ⟨rfl, t, rfl⟩

/-- `containsB` succeeds exactly when the pattern occurs as a contiguous
substring. -/
theorem containsB_iff_exists (pat l : List Char) :
    containsB pat l = true ↔ ∃ x y, l = x ++ (pat ++ y) := by
  induction l with
  | nil =>
    rw [show containsB pat [] = pat.isPrefixOf [] from rfl, isPrefixOf_iff_exists]
    constructor
    · rintro ⟨t, ht⟩
      exact ⟨[], t, by simpa using ht⟩
    · rintro ⟨x, y, hxy⟩
      obtain ⟨hx, hpy⟩ := List.append_eq_nil.mp hxy.symm
      exact ⟨y, hpy.symm⟩
  | cons c cs ih =>
    rw [show containsB pat (c :: cs) =
      (pat.isPrefixOf (c :: cs) || containsB pat cs) from rfl]
    rw [Bool.or_eq_true, isPrefixOf_iff_exists, ih]
    constructor
    · rintro (⟨t, ht⟩ | ⟨x, y, hxy⟩)
      · exact ⟨[], t, by simpa using ht⟩
      · exact ⟨c :: x, y, by simp [hxy]⟩
    · rintro ⟨x, y, hxy⟩
      cases x with
      | nil => exact Or.inl ⟨y, by simpa using hxy⟩
      | cons d ds =>
        right
        have h1 : c = d ∧ cs = ds ++ (pat ++ y) := by simpa using hxy
        exact ⟨ds, y, h1.2⟩

/-- Exhibiting an occurrence proves `containsB`. -/
theorem containsB_of_decomp (pat x y l : List Char) (h : l = x ++ (pat ++ y)) :
    containsB pat l = true :=
  (containsB_iff_exists pat l).mpr ⟨x, y, h⟩

/-- `okHead` only looks at the first segment of an append. -/
theorem okHead_append (a b : List Char) (h : a ≠ []) :
    okHead (a ++ b) = okHead a := by
  cases a with
  | nil => exact absurd rfl h
  | cons c cs => rfl

/-- `okLast` only looks at the last segment of an append. -/
theorem okLast_append (a b : List Char) (h : b ≠ []) :
    okLast (a ++ b) = okLast b := by
  unfold okLast
  rw [List.reverse_append]
  exact okHead_append _ _ (fun hc => h (List.reverse_eq_nil_iff.mp hc))

/-- Unpacking `borderfreeB`. -/
theorem borderfreeB_spec (pat : List Char) (h : borderfreeB pat = true)
    (k : Nat) (hk0 : 0 < k) (hk : k < pat.length) :
    (pat.drop k).isPrefixOf pat = false := by
  have h2 := List.all_eq_true.mp h k (List.mem_range.mpr hk)
  simp only [Bool.or_eq_true, beq_iff_eq, Bool.not_eq_true'] at h2
  rcases h2 with h3 | h3
  · omega
  · exact h3

/-- The key templating step: if the pattern is border-free and does not occur
in `a`, then replacing its first occurrence in `a ++ pat ++ b` substitutes
exactly the middle copy. -/
theorem replaceFirst_at (pat repl b : List Char) (hne : pat ≠ [])
    (hbf : borderfreeB pat = true) :
    ∀ a : List Char, containsB pat a = false →
      replaceFirst pat repl (a ++ (pat ++ b)) = a ++ (repl ++ b) := by
  intro a
  induction a with
  | nil =>
    intro _
    cases pat with
    | nil => exact absurd rfl hne
    | cons p ps =>
      show replaceFirst (p :: ps) repl ((p :: ps) ++ b) = repl ++ b
      rw [show ((p :: ps) ++ b) = p :: (ps ++ b) from rfl]
      unfold replaceFirst
      rw [if_pos]
      · rw [show (p :: (ps ++ b)) = (p :: ps) ++ b from rfl, List.drop_left]
      · exact (isPrefixOf_iff_exists _ _).mpr ⟨b, rfl⟩
  | cons c a' ih =>
    intro ha
    have hsplit : pat.isPrefixOf (c :: a') = false ∧ containsB pat a' = false := by
      have e : containsB pat (c :: a') =
          (pat.isPrefixOf (c :: a') || containsB pat a') := rfl
      rw [e] at ha
      exact Bool.or_eq_false_iff.mp ha
    have hnp : pat.isPrefixOf (c :: (a' ++ (pat ++ b))) = false := by
      by_contra hcon
      have hp : pat.isPrefixOf (c :: (a' ++ (pat ++ b))) = true := by
        revert hcon; cases pat.isPrefixOf (c :: (a' ++ (pat ++ b))) <;> simp
      obtain ⟨t, ht⟩ := (isPrefixOf_iff_exists _ _).mp hp
      have ht' : (c :: a') ++ (pat ++ b) = pat ++ t := by simpa using ht
      rcases le_or_lt pat.length (c :: a').length with hle | hlt
      · have htake : (c :: a').take pat.length = pat := by
          have t1 := congrArg (fun l => List.take pat.length l) ht'
          simp only at t1
          rw [List.take_append_eq_append_take,
            Nat.sub_eq_zero_of_le hle, List.take_zero, List.append_nil,
            List.take_left] at t1
          exact t1
        have hpfx : pat.isPrefixOf (c :: a') = true := by
          refine (isPrefixOf_iff_exists _ _).mpr ⟨(c :: a').drop pat.length, ?_⟩
          conv_lhs => rw [← List.take_append_drop pat.length (c :: a')]
          rw [htake]
        rw [hsplit.1] at hpfx
        exact Bool.false_ne_true hpfx
      · have hpa : pat = (c :: a') ++ pat.take (pat.length - (c :: a').length) := by
          have t1 := congrArg (fun l => List.take pat.length l) ht'
          simp only at t1
          rw [List.take_append_eq_append_take,
            List.take_of_length_le (Nat.le_of_lt hlt),
            List.take_append_eq_append_take,
            show pat.length - (c :: a').length - pat.length = 0 by omega,
            List.take_zero, List.append_nil, List.take_left] at t1
          exact t1.symm
        have hdrop : pat.drop (c :: a').length =
            pat.take (pat.length - (c :: a').length) := by
          conv_lhs => rw [hpa]
          exact List.drop_left _ _
        have hbad : (pat.drop (c :: a').length).isPrefixOf pat = true := by
          rw [hdrop]
          refine (isPrefixOf_iff_exists _ _).mpr
            ⟨pat.drop (pat.length - (c :: a').length), ?_⟩
          rw [List.take_append_drop]
        have hgood := borderfreeB_spec pat hbf (c :: a').length
          (by simp) hlt
        rw [hgood] at hbad
        exact Bool.false_ne_true hbad
    show replaceFirst pat repl (c :: (a' ++ (pat ++ b))) = (c :: a') ++ (repl ++ b)
    unfold replaceFirst
    rw [if_neg (by rw [hnp]; exact Bool.false_ne_true)]
    rw [ih hsplit.2]
    rfl

/-- If the pattern is made of token characters, occurs in neither part, and
one side of the junction does not offer a token character, then it does not
occur in the concatenation. -/
theorem containsB_append_false (pat x y : List Char) (hne : pat ≠ [])
    (htok : pat.all tokChar = true)
    (hb : okLast x = true ∨ okHead y = true)
    (hx : containsB pat x = false) (hy : containsB pat y = false) :
    containsB pat (x ++ y) = false := by
  by_contra hcon
  have hc : containsB pat (x ++ y) = true := by
    revert hcon; cases containsB pat (x ++ y) <;> simp
  obtain ⟨s, u, hsu⟩ := (containsB_iff_exists _ _).mp hc
  rcases le_or_lt (s.length + pat.length) x.length with hA | hA
  · have e1 : x = s ++ (pat ++ u.take (x.length - s.length - pat.length)) := by
      have t1 : (x ++ y).take x.length = x := List.take_left x y
      rw [hsu, List.take_append_eq_append_take,
        List.take_of_length_le (show s.length ≤ x.length by omega),
        List.take_append_eq_append_take,
        List.take_of_length_le (show pat.length ≤ x.length - s.length by omega)]
        at t1
      exact t1.symm
    have := containsB_of_decomp pat s _ x e1
    rw [hx] at this
    exact Bool.false_ne_true this
  · rcases le_or_lt x.length s.length with hB | hB
    · have e2 : y = s.drop x.length ++ (pat ++ u) := by
        have t1 : (x ++ y).drop x.length = y := List.drop_left x y
        rw [hsu, List.drop_append_eq_append_drop,
          Nat.sub_eq_zero_of_le hB, List.drop_zero] at t1
        exact t1.symm
      have := containsB_of_decomp pat _ u y e2
      rw [hy] at this
      exact Bool.false_ne_true this
    · have hx_eq : x = s ++ pat.take (x.length - s.length) := by
        have t1 : (x ++ y).take x.length = x := List.take_left x y
        rw [hsu, List.take_append_eq_append_take,
          List.take_of_length_le (show s.length ≤ x.length by omega),
          List.take_append_eq_append_take,
          show x.length - s.length - pat.length = 0 by omega,
          List.take_zero, List.append_nil] at t1
        exact t1.symm
      have hy_eq : y = pat.drop (x.length - s.length) ++ u := by
        have t1 : (x ++ y).drop x.length = y := List.drop_left x y
        rw [hsu, List.drop_append_eq_append_drop,
          List.drop_eq_nil_of_le (show s.length ≤ x.length by omega),
          List.nil_append, List.drop_append_eq_append_drop,
          show x.length - s.length - pat.length = 0 by omega,
          List.drop_zero] at t1
        exact t1.symm
      have hTne : pat.take (x.length - s.length) ≠ [] := by
        intro hnil
        have hlen := congrArg List.length hnil
        simp only [List.length_take, List.length_nil] at hlen
        rcases Nat.min_eq_zero_iff.mp hlen with h1 | h1
        · omega
        · exact hne (List.length_eq_zero.mp h1)
      have hDne : pat.drop (x.length - s.length) ≠ [] := by
        intro hnil
        have hlen := congrArg List.length hnil
        simp only [List.length_drop, List.length_nil] at hlen
        omega
      have hxlast : okLast x = false := by
        rw [hx_eq, okLast_append _ _ hTne]
        unfold okLast
        cases hrev : (pat.take (x.length - s.length)).reverse with
        | nil => exact absurd (List.reverse_eq_nil_iff.mp hrev) hTne
        | cons d ds =>
          have hdmem : d ∈ pat := by
            have hm1 : d ∈ (pat.take (x.length - s.length)).reverse := by
              rw [hrev]; exact List.mem_cons_self d ds
            have hm2 : d ∈ pat.take (x.length - s.length) :=
              List.mem_reverse.mp hm1
            have hm3 : pat.take (x.length - s.length) ++
                pat.drop (x.length - s.length) = pat :=
              List.take_append_drop _ pat
            rw [← hm3]
            exact List.mem_append.mpr (Or.inl hm2)
          have htc : tokChar d = true := List.all_eq_true.mp htok d hdmem
          simp [okHead, htc]
      have hyhead : okHead y = false := by
        rw [hy_eq, okHead_append _ _ hDne]
        cases hd : pat.drop (x.length - s.length) with
        | nil => exact absurd hd hDne
        | cons d ds =>
          have hdmem : d ∈ pat := by
            have hm2 : d ∈ pat.drop (x.length - s.length) := by
              rw [hd]; exact List.mem_cons_self d ds
            have hm3 : pat.take (x.length - s.length) ++
                pat.drop (x.length - s.length) = pat :=
              List.take_append_drop _ pat
            rw [← hm3]
            exact List.mem_append.mpr (Or.inr hm2)
          have htc : tokChar d = true := List.all_eq_true.mp htok d hdmem
          simp [okHead, htc]
      rcases hb with hbl | hbr
      · rw [hxlast] at hbl; exact Bool.false_ne_true hbl
      · rw [hyhead] at hbr; exact Bool.false_ne_true hbr

/-- Helper: `run_loop` from a state that already requested exit performs no
iteration. -/
theorem run_loop_exit (s : DaemonState) (l : List IterInput)
    (h : s.exit_requested = true) : run_loop s l = (s, []) := by
  cases l with
  | nil => rfl
  | cons inp rest => simp [run_loop, h]

/-- Helper: a loop iteration only ever emits GPIO writes. -/
theorem loop_iteration_writes (s : DaemonState) (inp : IterInput) :
    ∀ e ∈ (loop_iteration s inp).2, ∃ b, e = Event.writePin b := by
  unfold loop_iteration
  by_cases h : s.pin != get_expected_led_state
      (process_pending inp.requests s.led_action) inp.now 500
  · simp [h]
  · simp [h]

/-- Helper: the loop body only ever emits GPIO writes. -/
theorem run_loop_writes (l : List IterInput) :
    ∀ (s : DaemonState), ∀ e ∈ (run_loop s l).2, ∃ b, e = Event.writePin b := by
  induction l with
  | nil => intro s e he; simp [run_loop] at he
  | cons inp rest ih =>
    intro s e he
    by_cases hex : s.exit_requested = true
    · simp [run_loop, hex] at he
    · simp only [run_loop, hex, if_false, Bool.false_eq_true] at he
      rcases List.mem_append.mp he with h | h
      · exact loop_iteration_writes s inp e h
      · exact ih _ e h

/-- C1 counterexample: the claim asserts that at a wall-clock time that is an
exact multiple of 500 ms the Blink waveform is `true`; at `t = 500` (an exact
multiple of 500) the source computes `(500 / 500) % 2 = 1`, so the result is
`false`. -/
theorem C1_counterexample :
    (500 : Nat) % 500 = 0 ∧
    get_expected_led_state led_action_t.LED_BLINK 500 500 = false := by
  constructor
  · decide
  · decide

/-- C1 (amended): `get_expected_led_state` maps `On` to `true` and `Off` to
`false` for every time `t`, and maps `Blink` at time `t` to `true` exactly when
`t / 500` (truncating division) is even; in particular at a `t` that is an
exact multiple of 1000 ms (an even half-period index) the Blink result is
`true`. -/
theorem C1_amended_thm (t : Nat) :
    get_expected_led_state led_action_t.LED_ON t 500 = true ∧
    get_expected_led_state led_action_t.LED_OFF t 500 = false ∧
    (get_expected_led_state led_action_t.LED_BLINK t 500 = true ↔
      (t / 500) % 2 = 0) ∧
    (t % 1000 = 0 → get_expected_led_state led_action_t.LED_BLINK t 500 = true) := by
  refine ⟨rfl, rfl, ?_, ?_⟩
  · simp [get_expected_led_state]
  · intro h
    obtain ⟨k, hk⟩ := Nat.dvd_of_mod_eq_zero h
    subst hk
    have h1 : (1000 * k) / 500 = 2 * k := by
      have : 1000 * k = 500 * (2 * k) := by ring
      rw [this, Nat.mul_div_cancel_left _ (by norm_num)]
    simp [get_expected_led_state, h1, Nat.mul_mod_right]

/-- C1 amended witness at `t = 2000`. -/
theorem C1_amended_witness :
    get_expected_led_state led_action_t.LED_BLINK 2000 500 = true :=
  (C1_amended_thm 2000).2.2.2 (by decide)

/-- C2: for every sequence of `set` calls whose arguments are the valid
literals, an immediately following `get` returns exactly the last `set`
argument, from any starting daemon state (hence regardless of blink phase or
pin level, which the handlers never read). -/
theorem C2_thm (s : led_action_t) (pre : List String) (a : String)
    (hpre : ∀ x ∈ pre, x = "on" ∨ x = "off" ∨ x = "blink")
    (ha : a = "on" ∨ a = "off" ∨ a = "blink") :
    get_handler (apply_sets (pre ++ [a]) s) = a := by
  have h : apply_sets (pre ++ [a]) s = (set_handler a (apply_sets pre s)).1 := by
    simp [apply_sets, List.foldl_append]
  rw [h]
  rcases ha with h' | h' | h' <;> subst h' <;> rfl

/-- C2 witness: after `set "on"; set "blink"; set "off"`, `get` returns
`"off"`. -/
theorem C2_witness :
    get_handler (apply_sets (["on", "blink"] ++ ["off"]) led_action_t.LED_OFF) = "off" :=
  C2_thm led_action_t.LED_OFF ["on", "blink"] "off" (by decide) (by decide)

/-- C3: the `set` handler accepts exactly the literals `"on"`, `"off"`,
`"blink"` (case-sensitive, no trimming), assigning the corresponding action and
replying `true`; for every other string it replies `false`, leaves the state
unchanged, and a subsequent `get` returns the same string as before. -/
theorem C3_thm (s : led_action_t) (a : String) :
    (a = "on" → set_handler a s = (led_action_t.LED_ON, true)) ∧
    (a = "off" → set_handler a s = (led_action_t.LED_OFF, true)) ∧
    (a = "blink" → set_handler a s = (led_action_t.LED_BLINK, true)) ∧
    (a ≠ "on" → a ≠ "off" → a ≠ "blink" →
      set_handler a s = (s, false) ∧
      get_handler (set_handler a s).1 = get_handler s) := by
  refine ⟨?_, ?_, ?_, ?_⟩
  · intro h; subst h; rfl
  · intro h; subst h; rfl
  · intro h; subst h; rfl
  · intro h1 h2 h3
    have e : set_handler a s = (s, false) := by
      simp [set_handler, h1, h2, h3]
    exact ⟨e, by rw [e]⟩

/-- C3 witness: `set "On"` (wrong case) is rejected and leaves the state, and
the value reported by `get`, unchanged. -/
theorem C3_witness :
    set_handler "On" led_action_t.LED_BLINK = (led_action_t.LED_BLINK, false) ∧
    get_handler (set_handler "On" led_action_t.LED_BLINK).1 =
      get_handler led_action_t.LED_BLINK :=
  (C3_thm led_action_t.LED_BLINK "On").2.2.2 (by decide) (by decide) (by decide)

/-- C4: at the end of every poll-loop iteration the pin's commanded level
equals `get_expected_led_state` of the (post-drain) current action at the
wall-clock time observed in that iteration; the poll timeout bounding the
iteration interval is the source literal 100 ms. -/
theorem C4_thm (s : DaemonState) (inp : IterInput) :
    (loop_iteration s inp).1.pin =
      get_expected_led_state (loop_iteration s inp).1.led_action inp.now 500 ∧
    poll_timeout_ms = 100 := by
  constructor
  · unfold loop_iteration
    by_cases h : s.pin = get_expected_led_state
        (process_pending inp.requests s.led_action) inp.now 500
    · simp [h]
    · have hb : (s.pin != get_expected_led_state
          (process_pending inp.requests s.led_action) inp.now 500) = true := by
        simp [bne, h]
      simp [hb]
  · rfl

/-- C6: in every loop iteration, if the expected level equals the pin's
current (last-commanded) level no GPIO write is issued; a write — of the new
expected level — is issued exactly when they differ. -/
theorem C6_thm (s : DaemonState) (inp : IterInput) :
    (get_expected_led_state (process_pending inp.requests s.led_action)
        inp.now 500 = s.pin →
      (loop_iteration s inp).2 = []) ∧
    (get_expected_led_state (process_pending inp.requests s.led_action)
        inp.now 500 ≠ s.pin →
      (loop_iteration s inp).2 =
        [Event.writePin (get_expected_led_state
          (process_pending inp.requests s.led_action) inp.now 500)]) := by
  constructor
  · intro h
    unfold loop_iteration
    simp [h]
  · intro h
    have hb : (s.pin != get_expected_led_state
        (process_pending inp.requests s.led_action) inp.now 500) = true := by
      simp [bne]
      exact fun e => h e.symm
    unfold loop_iteration
    simp [hb]

/-- C6 witness: with action `Off`, pin already low, no request pending, the
iteration issues no write. -/
theorem C6_witness :
    (loop_iteration ⟨led_action_t.LED_OFF, false, false⟩ ⟨false, [], 0⟩).2 = [] :=
  (C6_thm ⟨led_action_t.LED_OFF, false, false⟩ ⟨false, [], 0⟩).1 (by decide)

/-- C7: when the signal source is ready in an iteration, the iteration sets
`exit_requested` but still drains the pending bus requests and updates the pin
for that iteration; the loop condition then terminates the loop before any
further iteration runs. -/
theorem C7_thm (s : DaemonState) (inp : IterInput) (rest : List IterInput)
    (hsig : inp.signal_ready = true) :
    (loop_iteration s inp).1.exit_requested = true ∧
    (loop_iteration s inp).1.led_action =
      process_pending inp.requests s.led_action ∧
    (loop_iteration s inp).1.pin =
      get_expected_led_state (process_pending inp.requests s.led_action)
        inp.now 500 ∧
    (s.exit_requested = false →
      run_loop s (inp :: rest) =
        ((loop_iteration s inp).1, (loop_iteration s inp).2)) := by
  have hexit : (loop_iteration s inp).1.exit_requested = true := by
    unfold loop_iteration
    by_cases h : s.pin = get_expected_led_state
        (process_pending inp.requests s.led_action) inp.now 500 <;>
      simp [h, hsig, bne]
  refine ⟨hexit, ?_, ?_, ?_⟩
  · unfold loop_iteration
    by_cases h : s.pin = get_expected_led_state
        (process_pending inp.requests s.led_action) inp.now 500 <;>
      simp [h, bne]
  · unfold loop_iteration
    by_cases h : s.pin = get_expected_led_state
        (process_pending inp.requests s.led_action) inp.now 500 <;>
      simp [h, bne]
  · intro hex
    have : run_loop (loop_iteration s inp).1 rest = ((loop_iteration s inp).1, []) :=
      run_loop_exit _ _ hexit
    simp [run_loop, hex, this]

/-- C7 witness: a signal-ready iteration with a pending `set "on"` still
applies the request and lights the pin, and the loop then stops. -/
theorem C7_witness :
    (loop_iteration ⟨led_action_t.LED_OFF, false, false⟩
        ⟨true, [BusRequest.set "on"], 7⟩).1.exit_requested = true ∧
    run_loop ⟨led_action_t.LED_OFF, false, false⟩
        [⟨true, [BusRequest.set "on"], 7⟩] =
      ((loop_iteration ⟨led_action_t.LED_OFF, false, false⟩
          ⟨true, [BusRequest.set "on"], 7⟩).1,
        (loop_iteration ⟨led_action_t.LED_OFF, false, false⟩
          ⟨true, [BusRequest.set "on"], 7⟩).2) :=
  ⟨(C7_thm ⟨led_action_t.LED_OFF, false, false⟩
      ⟨true, [BusRequest.set "on"], 7⟩ [] rfl).1,
   (C7_thm ⟨led_action_t.LED_OFF, false, false⟩
      ⟨true, [BusRequest.set "on"], 7⟩ [] rfl).2.2.2 rfl⟩

/-- C5: whenever the loop exits — for any schedule of actions and however
`exit_requested` became true — the trace ends with exactly the shutdown
sequence close-signalfd, pin-low, release-line, release-bus-name, in that
order, and none of the close/release effects occurs anywhere earlier in the
run. -/
theorem C5_thm (inputs : List IterInput)
    (h : (run_loop initial_state inputs).1.exit_requested = true) :
    ∃ p, service_trace inputs =
        p ++ [Event.closeSignalFd, Event.writePin false, Event.releaseLine,
              Event.releaseName] ∧
      Event.closeSignalFd ∉ p ∧ Event.releaseLine ∉ p ∧
      Event.releaseName ∉ p := by
  refine ⟨startup_events ++ (run_loop initial_state inputs).2, ?_, ?_, ?_, ?_⟩
  · simp [service_trace, h, shutdown_events, List.append_assoc]
  · intro hmem
    rcases List.mem_append.mp hmem with hm | hm
    · simp [startup_events] at hm
    · obtain ⟨b, hb⟩ := run_loop_writes inputs initial_state _ hm
      simp at hb
  · intro hmem
    rcases List.mem_append.mp hmem with hm | hm
    · simp [startup_events] at hm
    · obtain ⟨b, hb⟩ := run_loop_writes inputs initial_state _ hm
      simp at hb
  · intro hmem
    rcases List.mem_append.mp hmem with hm | hm
    · simp [startup_events] at hm
    · obtain ⟨b, hb⟩ := run_loop_writes inputs initial_state _ hm
      simp at hb

/-- C5 witness: a run whose first iteration observes the termination signal
exits and produces the shutdown suffix. -/
theorem C5_witness :
    ∃ p, service_trace [⟨true, [], 0⟩] =
        p ++ [Event.closeSignalFd, Event.writePin false, Event.releaseLine,
              Event.releaseName] ∧
      Event.closeSignalFd ∉ p ∧ Event.releaseLine ∉ p ∧
      Event.releaseName ∉ p :=
  C5_thm [⟨true, [], 0⟩] (by decide)

/-- C8 counterexample: the claim says the GPIO line is set up before the bus
name is claimed (line-then-bus); in the source `connection->requestName` (line
92) runs before the line acquisition (lines 95-97), so in the startup trace the
bus-name claim is at index 0 and the line acquisition at index 1. -/
theorem C8_counterexample :
    service_trace [] =
      [Event.requestName, Event.acquireLine, Event.writePin false,
       Event.createSignalFd] ∧
    (service_trace []).indexOf Event.requestName <
      (service_trace []).indexOf Event.acquireLine := by
  constructor
  · rfl
  · decide

/-- C8 (amended): during daemon startup the bus name is claimed before the
GPIO line is set up (attempt order bus-then-line in the source), and both
complete before the poll loop is entered: every trace starts with
`requestName` then `acquireLine`, and neither event recurs later in the run. -/
theorem C8_amended_thm (inputs : List IterInput) :
    ∃ rest, service_trace inputs =
        Event.requestName :: Event.acquireLine :: rest ∧
      Event.requestName ∉ rest ∧ Event.acquireLine ∉ rest := by
  refine ⟨[Event.writePin false, Event.createSignalFd] ++
      (if (run_loop initial_state inputs).1.exit_requested = true then
        (run_loop initial_state inputs).2 ++ shutdown_events
      else (run_loop initial_state inputs).2), ?_, ?_, ?_⟩
  · by_cases h : (run_loop initial_state inputs).1.exit_requested = true <;>
      simp [service_trace, startup_events, h]
  · intro hmem
    rcases List.mem_append.mp hmem with hm | hm
    · simp at hm
    · by_cases h : (run_loop initial_state inputs).1.exit_requested = true
      · rw [if_pos h] at hm
        rcases List.mem_append.mp hm with hm2 | hm2
        · obtain ⟨b, hb⟩ := run_loop_writes inputs initial_state _ hm2
          simp at hb
        · simp [shutdown_events] at hm2
      · rw [if_neg h] at hm
        obtain ⟨b, hb⟩ := run_loop_writes inputs initial_state _ hm
        simp at hb
  · intro hmem
    rcases List.mem_append.mp hmem with hm | hm
    · simp at hm
    · by_cases h : (run_loop initial_state inputs).1.exit_requested = true
      · rw [if_pos h] at hm
        rcases List.mem_append.mp hm with hm2 | hm2
        · obtain ⟨b, hb⟩ := run_loop_writes inputs initial_state _ hm2
          simp at hb
        · simp [shutdown_events] at hm2
      · rw [if_neg h] at hm
        obtain ⟨b, hb⟩ := run_loop_writes inputs initial_state _ hm
        simp at hb

/-- An append with a nonempty right part is nonempty. -/
theorem append_ne_nil_right (a b : List Char) (h : b ≠ []) : a ++ b ≠ [] := by
  intro hc
  exact h (List.append_eq_nil.mp hc).2

/-- Extending on the right of a good head keeps the head good. -/
theorem okHead_true_append (a b : List Char) (h : okHead a = true)
    (hne : a ≠ []) : okHead (a ++ b) = true := by
  rw [okHead_append a b hne]; exact h

/-- Extending on the left of a good last character keeps it good. -/
theorem okLast_true_append (a b : List Char) (h : okLast b = true)
    (hne : b ≠ []) : okLast (a ++ b) = true := by
  rw [okLast_append a b hne]; exact h

/-- A token does not occur in `A ++ (v ++ c)` when it occurs in none of the
three parts, `A` ends well, and `c` starts well. -/
theorem containsB_extend_false (pat A v c : List Char)
    (hne : pat ≠ []) (htok : pat.all tokChar = true)
    (hokA : okLast A = true) (hokc : okHead c = true)
    (hA : containsB pat A = false) (hv : containsB pat v = false)
    (hc : containsB pat c = false) :
    containsB pat (A ++ (v ++ c)) = false :=
  containsB_append_false pat A _ hne htok (Or.inl hokA) hA
    (containsB_append_false pat v c hne htok (Or.inr hokc) hv hc)

/-- `String.toList` distributes over append. -/
theorem toList_append_own (s t : String) :
    (s ++ t).toList = s.toList ++ t.toList := String.data_append s t

/-- The fully substituted `policyfile` text, when the substituted values
contain no `SERVICE_NAME`/`INTERFACE_NAME` token: each of the four
replacements lands exactly on its template placeholder. -/
theorem policyfileContent_decomp (pn sn iface : String)
    (hs1 : containsB svcTok pn.toList = false)
    (hs2 : containsB svcTok sn.toList = false)
    (hi1 : containsB ifaceTok pn.toList = false)
    (hi2 : containsB ifaceTok sn.toList = false) :
    policyfileContent pn sn iface =
      polP0 ++ (pn.toList ++ (polP1 ++ (sn.toList ++ (polP2 ++ (sn.toList ++
        (polP3 ++ (iface.toList ++ polP4))))))) := by
  have hT : policy_template.toList =
      polP0 ++ (progTok ++ (polP1 ++ (svcTok ++ (polP2 ++ (svcTok ++
        (polP3 ++ (ifaceTok ++ polP4))))))) := by decide
  have hA2 : containsB svcTok (polP0 ++ (pn.toList ++ polP1)) = false :=
    containsB_extend_false svcTok polP0 pn.toList polP1 (by decide) (by decide)
      (by decide) (by decide) (by decide) hs1 (by decide)
  have hokA2 : okLast (polP0 ++ (pn.toList ++ polP1)) = true :=
    okLast_true_append _ _
      (okLast_true_append pn.toList polP1 (by decide) (by decide))
      (append_ne_nil_right _ _ (by decide))
  have hA3 : containsB svcTok
      ((polP0 ++ (pn.toList ++ polP1)) ++ (sn.toList ++ polP2)) = false :=
    containsB_extend_false svcTok _ sn.toList polP2 (by decide) (by decide)
      hokA2 (by decide) hA2 hs2 (by decide)
  have hokA3 : okLast
      ((polP0 ++ (pn.toList ++ polP1)) ++ (sn.toList ++ polP2)) = true :=
    okLast_true_append _ _
      (okLast_true_append sn.toList polP2 (by decide) (by decide))
      (append_ne_nil_right _ _ (by decide))
  have hI2 : containsB ifaceTok (polP0 ++ (pn.toList ++ polP1)) = false :=
    containsB_extend_false ifaceTok polP0 pn.toList polP1 (by decide) (by decide)
      (by decide) (by decide) (by decide) hi1 (by decide)
  have hI3 : containsB ifaceTok
      ((polP0 ++ (pn.toList ++ polP1)) ++ (sn.toList ++ polP2)) = false :=
    containsB_extend_false ifaceTok _ sn.toList polP2 (by decide) (by decide)
      hokA2 (by decide) hI2 hi2 (by decide)
  have hI4 : containsB ifaceTok
      (((polP0 ++ (pn.toList ++ polP1)) ++ (sn.toList ++ polP2)) ++
        (sn.toList ++ polP3)) = false :=
    containsB_extend_false ifaceTok _ sn.toList polP3 (by decide) (by decide)
      hokA3 (by decide) hI3 hi2 (by decide)
  unfold policyfileContent
  rw [hT]
  rw [replaceFirst_at progTok pn.toList
    (polP1 ++ (svcTok ++ (polP2 ++ (svcTok ++ (polP3 ++ (ifaceTok ++ polP4))))))
    (by decide) (by decide) polP0 (by decide)]
  rw [show polP0 ++ (pn.toList ++ (polP1 ++ (svcTok ++ (polP2 ++ (svcTok ++
      (polP3 ++ (ifaceTok ++ polP4))))))) =
    (polP0 ++ (pn.toList ++ polP1)) ++ (svcTok ++ (polP2 ++ (svcTok ++
      (polP3 ++ (ifaceTok ++ polP4))))) from by simp [List.append_assoc]]
  rw [replaceFirst_at svcTok sn.toList
    (polP2 ++ (svcTok ++ (polP3 ++ (ifaceTok ++ polP4))))
    (by decide) (by decide) (polP0 ++ (pn.toList ++ polP1)) hA2]
  rw [show (polP0 ++ (pn.toList ++ polP1)) ++ (sn.toList ++ (polP2 ++
      (svcTok ++ (polP3 ++ (ifaceTok ++ polP4))))) =
    ((polP0 ++ (pn.toList ++ polP1)) ++ (sn.toList ++ polP2)) ++
      (svcTok ++ (polP3 ++ (ifaceTok ++ polP4))) from by
    simp [List.append_assoc]]
  rw [replaceFirst_at svcTok sn.toList (polP3 ++ (ifaceTok ++ polP4))
    (by decide) (by decide)
    ((polP0 ++ (pn.toList ++ polP1)) ++ (sn.toList ++ polP2)) hA3]
  rw [show ((polP0 ++ (pn.toList ++ polP1)) ++ (sn.toList ++ polP2)) ++
      (sn.toList ++ (polP3 ++ (ifaceTok ++ polP4))) =
    (((polP0 ++ (pn.toList ++ polP1)) ++ (sn.toList ++ polP2)) ++
      (sn.toList ++ polP3)) ++ (ifaceTok ++ polP4) from by
    simp [List.append_assoc]]
  rw [replaceFirst_at ifaceTok iface.toList polP4 (by decide) (by decide)
    (((polP0 ++ (pn.toList ++ polP1)) ++ (sn.toList ++ polP2)) ++
      (sn.toList ++ polP3)) hI4]
  simp [List.append_assoc]

/-- A token occurs nowhere in an alternation of well-delimited template chunks
`c0..c4` and token-free variable segments `v1..v4`. -/
theorem containsB_seg9_false (pat c0 c1 c2 c3 c4 v1 v2 v3 v4 : List Char)
    (hne : pat ≠ []) (htok : pat.all tokChar = true)
    (hok0 : okLast c0 = true) (hok1h : okHead c1 = true)
    (hok1l : okLast c1 = true) (hok2h : okHead c2 = true)
    (hok2l : okLast c2 = true) (hok3h : okHead c3 = true)
    (hok3l : okLast c3 = true) (hok4h : okHead c4 = true)
    (hn1 : c1 ≠ []) (hn2 : c2 ≠ []) (hn3 : c3 ≠ []) (hn4 : c4 ≠ [])
    (hc0 : containsB pat c0 = false) (hc1 : containsB pat c1 = false)
    (hc2 : containsB pat c2 = false) (hc3 : containsB pat c3 = false)
    (hc4 : containsB pat c4 = false)
    (hv1 : containsB pat v1 = false) (hv2 : containsB pat v2 = false)
    (hv3 : containsB pat v3 = false) (hv4 : containsB pat v4 = false) :
    containsB pat
      (c0 ++ (v1 ++ (c1 ++ (v2 ++ (c2 ++ (v3 ++ (c3 ++ (v4 ++ c4)))))))) =
      false := by
  apply containsB_append_false pat c0 _ hne htok (Or.inl hok0) hc0
  apply containsB_append_false pat v1 _ hne htok
    (Or.inr (okHead_true_append c1 _ hok1h hn1)) hv1
  apply containsB_append_false pat c1 _ hne htok (Or.inl hok1l) hc1
  apply containsB_append_false pat v2 _ hne htok
    (Or.inr (okHead_true_append c2 _ hok2h hn2)) hv2
  apply containsB_append_false pat c2 _ hne htok (Or.inl hok2l) hc2
  apply containsB_append_false pat v3 _ hne htok
    (Or.inr (okHead_true_append c3 _ hok3h hn3)) hv3
  apply containsB_append_false pat c3 _ hne htok (Or.inl hok3l) hc3
  exact containsB_append_false pat v4 c4 hne htok (Or.inr hok4h) hv4 hc4

/-- C10: for every configured program name, service name and interface name
that contain none of the placeholder tokens, the text emitted by `policyfile`
is the template with the single `PROGNAME` occurrence, both `SERVICE_NAME`
occurrences and the single `INTERFACE_NAME` occurrence each replaced by the
configured value, and no placeholder token remains anywhere in the output. -/
theorem C10_thm (pn sn iface : String)
    (hp1 : containsB progTok pn.toList = false)
    (hp2 : containsB progTok sn.toList = false)
    (hp3 : containsB progTok iface.toList = false)
    (hs1 : containsB svcTok pn.toList = false)
    (hs2 : containsB svcTok sn.toList = false)
    (hs3 : containsB svcTok iface.toList = false)
    (hi1 : containsB ifaceTok pn.toList = false)
    (hi2 : containsB ifaceTok sn.toList = false)
    (hi3 : containsB ifaceTok iface.toList = false) :
    policyfileContent pn sn iface =
      polP0 ++ (pn.toList ++ (polP1 ++ (sn.toList ++ (polP2 ++ (sn.toList ++
        (polP3 ++ (iface.toList ++ polP4))))))) ∧
    containsB progTok (policyfileContent pn sn iface) = false ∧
    containsB svcTok (policyfileContent pn sn iface) = false ∧
    containsB ifaceTok (policyfileContent pn sn iface) = false := by
  have hd := policyfileContent_decomp pn sn iface hs1 hs2 hi1 hi2
  refine ⟨hd, ?_, ?_, ?_⟩
  · rw [hd]
    exact containsB_seg9_false progTok polP0 polP1 polP2 polP3 polP4
      pn.toList sn.toList sn.toList iface.toList
      (by decide) (by decide) (by decide) (by decide) (by decide) (by decide)
      (by decide) (by decide) (by decide) (by decide) (by decide) (by decide)
      (by decide) (by decide) (by decide) (by decide) (by decide) (by decide)
      (by decide) hp1 hp2 hp2 hp3
  · rw [hd]
    exact containsB_seg9_false svcTok polP0 polP1 polP2 polP3 polP4
      pn.toList sn.toList sn.toList iface.toList
      (by decide) (by decide) (by decide) (by decide) (by decide) (by decide)
      (by decide) (by decide) (by decide) (by decide) (by decide) (by decide)
      (by decide) (by decide) (by decide) (by decide) (by decide) (by decide)
      (by decide) hs1 hs2 hs2 hs3
  · rw [hd]
    exact containsB_seg9_false ifaceTok polP0 polP1 polP2 polP3 polP4
      pn.toList sn.toList sn.toList iface.toList
      (by decide) (by decide) (by decide) (by decide) (by decide) (by decide)
      (by decide) (by decide) (by decide) (by decide) (by decide) (by decide)
      (by decide) (by decide) (by decide) (by decide) (by decide) (by decide)
      (by decide) hi1 hi2 hi2 hi3

/-- C10 witness: concrete configured names free of placeholder tokens. -/
theorem C10_witness :
    policyfileContent "led-indicator" "org.example.Led" "org.example.LedIface" =
      polP0 ++ ("led-indicator".toList ++ (polP1 ++ ("org.example.Led".toList ++
        (polP2 ++ ("org.example.Led".toList ++ (polP3 ++
          ("org.example.LedIface".toList ++ polP4))))))) ∧
    containsB progTok (policyfileContent "led-indicator" "org.example.Led"
      "org.example.LedIface") = false ∧
    containsB svcTok (policyfileContent "led-indicator" "org.example.Led"
      "org.example.LedIface") = false ∧
    containsB ifaceTok (policyfileContent "led-indicator" "org.example.Led"
      "org.example.LedIface") = false :=
  C10_thm "led-indicator" "org.example.Led" "org.example.LedIface"
    (by decide) (by decide) (by decide) (by decide) (by decide) (by decide)
    (by decide) (by decide) (by decide)

/-- Whatever `opts1` produced, the ExecStart tail after `EXEPATH` starts with
a non-token character (a space or the `" service"` literal). -/
theorem opts1_okHead (sn : String) :
    okHead ((opts1 sn).toList ++ uniUmid) = true := by
  unfold opts1
  by_cases h : sn ≠ defaults.serviceName
  · rw [if_pos h, toList_append_own,
      show " --service-name=".toList = ' ' :: "--service-name=".toList from by
        decide]
    rfl
  · rw [if_neg h]
    decide

/-- A placeholder token free of the service name and of the option literal
does not occur in `opts1`. -/
theorem containsB_opts1 (pat : List Char) (sn : String)
    (hne : pat ≠ []) (htok : pat.all tokChar = true)
    (hlit : containsB pat " --service-name=".toList = false)
    (hsn : containsB pat sn.toList = false) :
    containsB pat (opts1 sn).toList = false := by
  unfold opts1
  by_cases h : sn ≠ defaults.serviceName
  · rw [if_pos h, toList_append_own]
    exact containsB_append_false pat " --service-name=".toList sn.toList
      hne htok (Or.inl (by decide)) hlit hsn
  · rw [if_neg h]
    cases pat with
    | nil => exact absurd rfl hne
    | cons c cs => rfl

/-- The fully substituted `unitfile` text, when the service name and the
binary path contain no later placeholder token: each of the five replacements
lands exactly on its template placeholder. -/
theorem unitfileContent_decomp (chipname : String) (line_num : Nat)
    (sn exepath : String)
    (h1 : containsB exeTok sn.toList = false)
    (h2 : containsB opts1Tok sn.toList = false)
    (h3 : containsB opts2Tok sn.toList = false)
    (h4 : containsB opts1Tok exepath.toList = false)
    (h5 : containsB opts2Tok exepath.toList = false) :
    unitfileContent chipname line_num sn exepath =
      uniU0 ++ (progname.toList ++ (uniU1 ++ (sn.toList ++ (uniU2 ++
        (exepath.toList ++ ((opts1 sn).toList ++ (uniUmid ++
          ((opts2 chipname line_num).toList ++ uniU3)))))))) := by
  have hT : unit_template.toList =
      uniU0 ++ (progTok ++ (uniU1 ++ (svcTok ++ (uniU2 ++ (exeTok ++
        (opts1Tok ++ (uniUmid ++ (opts2Tok ++ uniU3)))))))) := by decide
  have hW_svc : containsB svcTok (uniU0 ++ (progname.toList ++ uniU1)) =
      false := by decide
  have hA3exe : containsB exeTok
      ((uniU0 ++ (progname.toList ++ uniU1)) ++ (sn.toList ++ uniU2)) =
      false :=
    containsB_extend_false exeTok _ sn.toList uniU2 (by decide) (by decide)
      (by decide) (by decide) (by decide) h1 (by decide)
  have hokA3 : okLast
      ((uniU0 ++ (progname.toList ++ uniU1)) ++ (sn.toList ++ uniU2)) =
      true :=
    okLast_true_append _ _
      (okLast_true_append sn.toList uniU2 (by decide) (by decide))
      (append_ne_nil_right _ _ (by decide))
  have hA3o1 : containsB opts1Tok
      ((uniU0 ++ (progname.toList ++ uniU1)) ++ (sn.toList ++ uniU2)) =
      false :=
    containsB_extend_false opts1Tok _ sn.toList uniU2 (by decide) (by decide)
      (by decide) (by decide) (by decide) h2 (by decide)
  have hA4o1 : containsB opts1Tok
      (((uniU0 ++ (progname.toList ++ uniU1)) ++ (sn.toList ++ uniU2)) ++
        exepath.toList) = false :=
    containsB_append_false opts1Tok _ exepath.toList (by decide) (by decide)
      (Or.inl hokA3) hA3o1 h4
  have hA3o2 : containsB opts2Tok
      ((uniU0 ++ (progname.toList ++ uniU1)) ++ (sn.toList ++ uniU2)) =
      false :=
    containsB_extend_false opts2Tok _ sn.toList uniU2 (by decide) (by decide)
      (by decide) (by decide) (by decide) h3 (by decide)
  have hA4o2 : containsB opts2Tok
      (((uniU0 ++ (progname.toList ++ uniU1)) ++ (sn.toList ++ uniU2)) ++
        exepath.toList) = false :=
    containsB_append_false opts2Tok _ exepath.toList (by decide) (by decide)
      (Or.inl hokA3) hA3o2 h5
  have hO1M : containsB opts2Tok ((opts1 sn).toList ++ uniUmid) = false :=
    containsB_append_false opts2Tok (opts1 sn).toList uniUmid (by decide)
      (by decide) (Or.inr (by decide))
      (containsB_opts1 opts2Tok sn (by decide) (by decide) (by decide) h3)
      (by decide)
  have hA5 : containsB opts2Tok
      ((((uniU0 ++ (progname.toList ++ uniU1)) ++ (sn.toList ++ uniU2)) ++
        exepath.toList) ++ ((opts1 sn).toList ++ uniUmid)) = false :=
    containsB_append_false opts2Tok _ _ (by decide) (by decide)
      (Or.inr (opts1_okHead sn)) hA4o2 hO1M
  unfold unitfileContent
  rw [hT]
  rw [replaceFirst_at progTok progname.toList
    (uniU1 ++ (svcTok ++ (uniU2 ++ (exeTok ++ (opts1Tok ++ (uniUmid ++
      (opts2Tok ++ uniU3)))))))
    (by decide) (by decide) uniU0 (by decide)]
  rw [show uniU0 ++ (progname.toList ++ (uniU1 ++ (svcTok ++ (uniU2 ++
      (exeTok ++ (opts1Tok ++ (uniUmid ++ (opts2Tok ++ uniU3)))))))) =
    (uniU0 ++ (progname.toList ++ uniU1)) ++ (svcTok ++ (uniU2 ++ (exeTok ++
      (opts1Tok ++ (uniUmid ++ (opts2Tok ++ uniU3)))))) from by
    simp [List.append_assoc]]
  rw [replaceFirst_at svcTok sn.toList
    (uniU2 ++ (exeTok ++ (opts1Tok ++ (uniUmid ++ (opts2Tok ++ uniU3)))))
    (by decide) (by decide) (uniU0 ++ (progname.toList ++ uniU1)) hW_svc]
  rw [show (uniU0 ++ (progname.toList ++ uniU1)) ++ (sn.toList ++ (uniU2 ++
      (exeTok ++ (opts1Tok ++ (uniUmid ++ (opts2Tok ++ uniU3)))))) =
    ((uniU0 ++ (progname.toList ++ uniU1)) ++ (sn.toList ++ uniU2)) ++
      (exeTok ++ (opts1Tok ++ (uniUmid ++ (opts2Tok ++ uniU3)))) from by
    simp [List.append_assoc]]
  rw [replaceFirst_at exeTok exepath.toList
    (opts1Tok ++ (uniUmid ++ (opts2Tok ++ uniU3)))
    (by decide) (by decide) _ hA3exe]
  rw [show ((uniU0 ++ (progname.toList ++ uniU1)) ++ (sn.toList ++ uniU2)) ++
      (exepath.toList ++ (opts1Tok ++ (uniUmid ++ (opts2Tok ++ uniU3)))) =
    (((uniU0 ++ (progname.toList ++ uniU1)) ++ (sn.toList ++ uniU2)) ++
      exepath.toList) ++ (opts1Tok ++ (uniUmid ++ (opts2Tok ++ uniU3)))
    from by simp [List.append_assoc]]
  rw [replaceFirst_at opts1Tok (opts1 sn).toList
    (uniUmid ++ (opts2Tok ++ uniU3)) (by decide) (by decide) _ hA4o1]
  rw [show (((uniU0 ++ (progname.toList ++ uniU1)) ++ (sn.toList ++ uniU2)) ++
      exepath.toList) ++ ((opts1 sn).toList ++ (uniUmid ++ (opts2Tok ++
        uniU3))) =
    ((((uniU0 ++ (progname.toList ++ uniU1)) ++ (sn.toList ++ uniU2)) ++
      exepath.toList) ++ ((opts1 sn).toList ++ uniUmid)) ++ (opts2Tok ++
        uniU3) from by simp [List.append_assoc]]
  rw [replaceFirst_at opts2Tok (opts2 chipname line_num).toList uniU3
    (by decide) (by decide) _ hA5]
  simp [List.append_assoc]

/-- C9 counterexample: with the object path configured to `"/custom/path"`
(different from its default) and everything else at the defaults, the text
emitted by `unitfile` contains no `--object-path` option — indeed the source's
`unitfile` never reads `objectPath` or `interfaceName` at all, so neither
option can ever appear. -/
theorem C9_counterexample :
    "/custom/path" ≠ defaults.objectPath ∧
    containsB "--object-path".toList
      (unitfileContent defaults.chipname defaults.line_num
        defaults.serviceName "/usr/local/bin/led-indicator") = false ∧
    containsB "--interface-name".toList
      (unitfileContent defaults.chipname defaults.line_num
        defaults.serviceName "/usr/local/bin/led-indicator") = false := by
  refine ⟨by decide, by decide, by decide⟩

/-- C9 (amended): provided the configured service name and the binary path
contain no placeholder token, the `unitfile` text references the running
binary's own path, and for each setting among the service name, chip name and
line number whose value differs from its default the corresponding
command-line option appears in the emitted text; the operation exits 0.
(The object path and interface name are not reflected by `unitfile`.) -/
theorem C9_amended_thm (chipname : String) (line_num : Nat)
    (sn exepath : String)
    (h1 : containsB exeTok sn.toList = false)
    (h2 : containsB opts1Tok sn.toList = false)
    (h3 : containsB opts2Tok sn.toList = false)
    (h4 : containsB opts1Tok exepath.toList = false)
    (h5 : containsB opts2Tok exepath.toList = false) :
    containsB exepath.toList
      (unitfileContent chipname line_num sn exepath) = true ∧
    (sn ≠ defaults.serviceName →
      containsB ("--service-name=" ++ sn).toList
        (unitfileContent chipname line_num sn exepath) = true) ∧
    (chipname ≠ defaults.chipname →
      containsB ("--chipname=" ++ chipname).toList
        (unitfileContent chipname line_num sn exepath) = true) ∧
    (line_num ≠ defaults.line_num →
      containsB ("--line=" ++ toString line_num).toList
        (unitfileContent chipname line_num sn exepath) = true) ∧
    (unitfile chipname line_num sn exepath).2 = 0 := by
  have hd := unitfileContent_decomp chipname line_num sn exepath h1 h2 h3 h4 h5
  refine ⟨?_, ?_, ?_, ?_, rfl⟩
  · exact containsB_of_decomp exepath.toList
      (uniU0 ++ (progname.toList ++ (uniU1 ++ (sn.toList ++ uniU2))))
      ((opts1 sn).toList ++ (uniUmid ++
        ((opts2 chipname line_num).toList ++ uniU3)))
      _ (by rw [hd]; simp [List.append_assoc])
  · intro hsn
    have ho1 : (opts1 sn).toList =
        ' ' :: ("--service-name=".toList ++ sn.toList) := by
      unfold opts1
      rw [if_pos hsn, toList_append_own,
        show " --service-name=".toList = ' ' :: "--service-name=".toList
          from by decide]
      rfl
    refine containsB_of_decomp _
      (uniU0 ++ (progname.toList ++ (uniU1 ++ (sn.toList ++ (uniU2 ++
        (exepath.toList ++ [' ']))))))
      (uniUmid ++ ((opts2 chipname line_num).toList ++ uniU3)) _ ?_
    rw [hd, ho1, toList_append_own]
    simp [List.append_assoc]
  · intro hch
    have ho2 : (opts2 chipname line_num).toList =
        (' ' :: ("--chipname=".toList ++ chipname.toList)) ++
          (if line_num ≠ defaults.line_num then
            " --line=" ++ toString line_num else "").toList := by
      unfold opts2
      rw [if_pos hch, toList_append_own, toList_append_own,
        show " --chipname=".toList = ' ' :: "--chipname=".toList
          from by decide]
      rfl
    refine containsB_of_decomp _
      (uniU0 ++ (progname.toList ++ (uniU1 ++ (sn.toList ++ (uniU2 ++
        (exepath.toList ++ ((opts1 sn).toList ++ (uniUmid ++ [' ']))))))))
      ((if line_num ≠ defaults.line_num then
        " --line=" ++ toString line_num else "").toList ++ uniU3) _ ?_
    rw [hd, ho2, toList_append_own]
    simp [List.append_assoc]
  · intro hln
    have ho2 : (opts2 chipname line_num).toList =
        (if chipname ≠ defaults.chipname then
          " --chipname=" ++ chipname else "").toList ++
          (' ' :: ("--line=".toList ++ (toString line_num).toList)) := by
      unfold opts2
      rw [if_pos hln, toList_append_own, toList_append_own,
        show " --line=".toList = ' ' :: "--line=".toList from by decide]
      rfl
    refine containsB_of_decomp _
      (uniU0 ++ (progname.toList ++ (uniU1 ++ (sn.toList ++ (uniU2 ++
        (exepath.toList ++ ((opts1 sn).toList ++ (uniUmid ++
          ((if chipname ≠ defaults.chipname then
            " --chipname=" ++ chipname else "").toList ++ [' '])))))))))
      uniU3 _ ?_
    rw [hd, ho2, toList_append_own]
    simp [List.append_assoc]

/-- C9 witness: every non-default setting shows up in the emitted unit text. -/
theorem C9_witness :
    containsB "/opt/led".toList
      (unitfileContent "gpiochip1" 5 "org.example.Led" "/opt/led") = true ∧
    containsB ("--service-name=" ++ "org.example.Led").toList
      (unitfileContent "gpiochip1" 5 "org.example.Led" "/opt/led") = true ∧
    containsB ("--chipname=" ++ "gpiochip1").toList
      (unitfileContent "gpiochip1" 5 "org.example.Led" "/opt/led") = true ∧
    containsB ("--line=" ++ toString 5).toList
      (unitfileContent "gpiochip1" 5 "org.example.Led" "/opt/led") = true :=
  ⟨(C9_amended_thm "gpiochip1" 5 "org.example.Led" "/opt/led"
      (by decide) (by decide) (by decide) (by decide) (by decide)).1,
   (C9_amended_thm "gpiochip1" 5 "org.example.Led" "/opt/led"
      (by decide) (by decide) (by decide) (by decide) (by decide)).2.1
     (by decide),
   (C9_amended_thm "gpiochip1" 5 "org.example.Led" "/opt/led"
      (by decide) (by decide) (by decide) (by decide) (by decide)).2.2.1
     (by decide),
   (C9_amended_thm "gpiochip1" 5 "org.example.Led" "/opt/led"
      (by decide) (by decide) (by decide) (by decide) (by decide)).2.2.2.1
     (by decide)⟩
